import Mathlib

/-!
Verification development for the polls-api backend.

The definitions below are a shallow embedding of the vote-integrity and
poll-lifecycle core of the repository:
  app/models/polls.py        (Poll, PollOption, Vote rows and the
                              unique_user_vote_per_poll constraint)
  app/api/v1/endpoints/polls.py   (get_poll, get_polls, update_poll,
                              add_poll_option, vote_poll handlers)
  app/api/v1/utils/pagination.py  (calculate_pagination_metadata,
                              apply_pagination, paginate_query)
  app/schemas/poll.py        (PollCreate / PollUpdate validation)
  app/core/constants.py      (BusinessLimits, DatabaseConfig)

The database is modelled as lists of rows; each handler is a pure function
from the committed database state (plus request data) to the next committed
state and an HTTP-level outcome.  Timestamps and ids supplied by the store
are passed in as explicit arguments.
-/

namespace PollsApi

/-- String helpers.  Python str.strip / str.lower / substring tests and the
SQL lower()/ILIKE operators are modelled on the character list underlying
the string, with structural recursion so that everything kernel-evaluates. -/
def trimChars (l : List Char) : List Char :=
  ((l.dropWhile Char.isWhitespace).reverse.dropWhile Char.isWhitespace).reverse

/-- Python str.strip(). -/
def strip (s : String) : String :=
  String.mk (trimChars s.data)

/-- Python str.lower() and SQL lower() (ASCII case folding). -/
def lowerStr (s : String) : String :=
  String.mk (s.data.map Char.toLower)

/-- needle occurs as a contiguous sublist of hay (Python `in`, SQL LIKE with
percent on both sides). -/
def listContainsSub (needle : List Char) : List Char → Bool
  | [] => needle.isEmpty
  | c :: t => needle.isPrefixOf (c :: t) || listContainsSub needle t

/-- Words of a string, splitting on whitespace runs (Python str.split()). -/
def wordsAux : List Char → List Char → List (List Char)
  | [], cur => if cur.isEmpty then [] else [cur.reverse]
  | c :: t, cur =>
    if c.isWhitespace then
      if cur.isEmpty then wordsAux t [] else cur.reverse :: wordsAux t []
    else wordsAux t (c :: cur)

def joinWords : List (List Char) → List Char
  | [] => []
  | [w] => w
  | w :: ws => w ++ ' ' :: joinWords ws

/-- Python `' '.join(v.split())`: collapse whitespace runs to single spaces
and drop leading/trailing whitespace. -/
def normalizeWs (s : String) : String :=
  String.mk (joinWords (wordsAux s.data []))

/-! ## Data model (app/models/polls.py) -/

structure PollRow where
  id : Int
  title : String
  description : Option String
  is_active : Bool
  is_public : Bool
  owner_id : Int
  pub_date : Int
deriving Repr, DecidableEq

structure PollOptionRow where
  id : Int
  poll_id : Int
  text : String
  vote_count : Nat
deriving Repr, DecidableEq

structure VoteRow where
  id : Int
  poll_option_id : Int
  poll_id : Int
  user_id : Int
  created_at : Int
deriving Repr, DecidableEq

/-- The committed state of the three poll-core tables. -/
structure DB where
  polls : List PollRow
  options : List PollOptionRow
  votes : List VoteRow
deriving Repr, DecidableEq

/-! ## Constants (app/core/constants.py) -/

namespace BusinessLimits

def MAX_POLL_OPTIONS : Nat := 10

def MAX_VOTES_PER_USER_PER_DAY : Nat := 1000

def MIN_POLL_TITLE_LENGTH : Nat := 5

def MAX_POLL_TITLE_LENGTH : Nat := 200

def MAX_POLL_DESCRIPTION_LENGTH : Nat := 1000

end BusinessLimits

namespace DatabaseConfig

def DEFAULT_PAGE_SIZE : Nat := 10

def MAX_PAGE_SIZE : Nat := 100

end DatabaseConfig

/-! ## HTTP-level outcomes

Each raise of HTTPException in the handlers carries a status code and a
stable error_code string; both are modelled.  Four deny paths of vote_poll
in app/api/v1/endpoints/polls.py refer to attributes that are absent from
app/core/constants.py (ErrorCodes.POLL_INACTIVE, ErrorMessages and
ErrorCodes entries for OPTION_NOT_IN_POLL, ALREADY_VOTED and
VOTE_LIMIT_EXCEEDED); evaluating such an attribute raises AttributeError,
which the final `except Exception` handler of vote_poll converts into a
500 response with error_code POLL_VOTE_FAILED (after db.rollback()).
Those four paths are therefore embedded as pollVoteFailedErr. -/

structure ApiError where
  status : Nat
  code : String
deriving Repr, DecidableEq

def validationFailedErr : ApiError := { status := 422, code := "VALIDATION_ERROR" }

def pollNotFoundErr : ApiError := { status := 404, code := "POLL_NOT_FOUND" }

def authenticationRequiredErr : ApiError := { status := 401, code := "AUTHENTICATION_REQUIRED" }

def accessDeniedErr : ApiError := { status := 403, code := "ACCESS_DENIED" }

def pollOptionNotFoundErr : ApiError := { status := 404, code := "POLL_OPTION_NOT_FOUND" }

def voteModelConstraintErr : ApiError := { status := 401, code := "VOTE_MODEL_CONSTRAINT" }

def integrityErrorErr : ApiError := { status := 400, code := "INTEGRITY_ERROR" }

/-- The outcome of the generic `except Exception` handler of vote_poll
(reached via AttributeError on the missing constants, see above). -/
def pollVoteFailedErr : ApiError := { status := 500, code := "POLL_VOTE_FAILED" }

def insufficientPermissionsErr : ApiError := { status := 403, code := "INSUFFICIENT_PERMISSIONS" }

def pollInactiveErr : ApiError := { status := 400, code := "POLL_INACTIVE" }

def maxOptionsExceededErr : ApiError := { status := 400, code := "MAX_OPTIONS_EXCEEDED" }

def duplicatePollOptionErr : ApiError := { status := 400, code := "DUPLICATE_POLL_OPTION" }

/-! ## Access gate shared by get_poll and vote_poll

Both handlers contain the identical public/private block
(polls.py:517-547 and polls.py:1125-1155): a public poll passes for any
caller; a private poll requires an authenticated caller whose id equals
the poll owner id. -/

def public_private_gate (poll : PollRow) (currentUser : Option Int) : Option ApiError :=
  if poll.is_public then none
  else
    match currentUser with
    | none => some authenticationRequiredErr
    | some uid => if poll.owner_id == uid then none else some accessDeniedErr

/-! ## get_poll (polls.py:456-566) -/

def get_poll (db : DB) (pollId : Int) (currentUser : Option Int) :
    Except ApiError PollRow :=
  if pollId ≤ 0 then .error validationFailedErr
  else
    match db.polls.find? (fun p => p.id == pollId) with
    | none => .error pollNotFoundErr
    | some poll =>
      match public_private_gate poll currentUser with
      | some e => .error e
      | none => .ok poll

/-! ## vote_poll (polls.py:1047-1345) -/

/-- The duplicate-vote pre-check (polls.py:1201-1204):
db.query(Vote).join(PollOption).filter(PollOption.poll_id == poll_id,
Vote.user_id == user_id).first().  The join condition is
Vote.poll_option_id == PollOption.id (the relationship). -/
def existing_vote (db : DB) (pollId uid : Int) : Option VoteRow :=
  db.votes.find? (fun v =>
    db.options.any (fun o => o.id == v.poll_option_id && o.poll_id == pollId)
      && v.user_id == uid)

/-- Daily vote count (polls.py:1219-1223): votes of the user with
created_at >= today_start. -/
def dailyVoteCount (db : DB) (uid todayStart : Int) : Nat :=
  (db.votes.filter (fun v =>
    v.user_id == uid && decide (todayStart ≤ v.created_at))).length

/-- The commit of the vote transaction (polls.py:1254-1270): one Vote row
inserted and the chosen option's vote_count incremented, both applied by
the single db.commit(); the unique_user_vote_per_poll constraint on
(poll_id, user_id) aborts the whole transaction with IntegrityError
(caught at polls.py:1307 after db.rollback()). -/
def vote_commit (db : DB) (pollId optionId uid now newVoteId : Int) :
    DB × Except ApiError VoteRow :=
  if db.votes.any (fun v => v.poll_id == pollId && v.user_id == uid) then
    (db, .error integrityErrorErr)
  else
    let newVote : VoteRow :=
      { id := newVoteId, poll_option_id := optionId, poll_id := pollId,
        user_id := uid, created_at := now }
    ({ polls := db.polls,
       options := db.options.map (fun o =>
         if o.id == optionId then { o with vote_count := o.vote_count + 1 } else o),
       votes := db.votes ++ [newVote] },
     .ok newVote)

/-- vote_poll handler.  Returns the committed database state after the
request together with the HTTP outcome; every deny path leaves the state
unchanged (no write precedes the commit, and IntegrityError rolls back). -/
def vote_poll (db : DB) (pollId optionId : Int) (currentUser : Option Int)
    (todayStart now newVoteId : Int) : DB × Except ApiError VoteRow :=
  if pollId ≤ 0 then (db, .error validationFailedErr)
  else if optionId ≤ 0 then (db, .error validationFailedErr)
  else
    match db.polls.find? (fun p => p.id == pollId) with
    | none => (db, .error pollNotFoundErr)
    | some poll =>
      match public_private_gate poll currentUser with
      | some e => (db, .error e)
      | none =>
        if poll.is_active = false then
          -- polls.py:1158-1167: the 400 POLL_INACTIVE raise evaluates the
          -- missing ErrorCodes.POLL_INACTIVE and aborts with AttributeError,
          -- surfaced by the generic handler as 500 POLL_VOTE_FAILED
          (db, .error pollVoteFailedErr)
        else
          match db.options.find? (fun o => o.id == optionId) with
          | none => (db, .error pollOptionNotFoundErr)
          | some popt =>
            if popt.poll_id ≠ pollId then
              -- polls.py:1184-1195: ErrorMessages.OPTION_NOT_IN_POLL is
              -- missing, AttributeError, surfaced as 500 POLL_VOTE_FAILED
              (db, .error pollVoteFailedErr)
            else
              match currentUser with
              | none =>
                -- polls.py:1236-1249: anonymous voting is rejected before
                -- any write (Vote.user_id is non-nullable)
                (db, .error voteModelConstraintErr)
              | some uid =>
                match existing_vote db pollId uid with
                | some _ =>
                  -- polls.py:1206-1216: ErrorCodes.ALREADY_VOTED is missing,
                  -- AttributeError, surfaced as 500 POLL_VOTE_FAILED
                  (db, .error pollVoteFailedErr)
                | none =>
                  if BusinessLimits.MAX_VOTES_PER_USER_PER_DAY ≤
                      dailyVoteCount db uid todayStart then
                    -- polls.py:1225-1235: ErrorMessages.VOTE_LIMIT_EXCEEDED is
                    -- missing, AttributeError, surfaced as 500 POLL_VOTE_FAILED
                    (db, .error pollVoteFailedErr)
                  else
                    vote_commit db pollId optionId uid now newVoteId

/-! ## add_poll_option (polls.py:848-1038) -/

def add_poll_option (db : DB) (pollId uid : Int) (text : String)
    (newOptionId : Int) : Except ApiError (DB × PollOptionRow) :=
  if pollId ≤ 0 then .error validationFailedErr
  else
    match db.polls.find? (fun p => p.id == pollId) with
    | none => .error pollNotFoundErr
    | some poll =>
      if poll.owner_id ≠ uid then .error insufficientPermissionsErr
      else if poll.is_active = false then .error pollInactiveErr
      else
        if BusinessLimits.MAX_POLL_OPTIONS ≤
            (db.options.filter (fun o => o.poll_id == pollId)).length then
          .error maxOptionsExceededErr
        else
          match db.options.find? (fun o =>
              o.poll_id == pollId && lowerStr o.text == lowerStr (strip text)) with
          | some _ => .error duplicatePollOptionErr
          | none =>
            let newOpt : PollOptionRow :=
              { id := newOptionId, poll_id := pollId, text := strip text,
                vote_count := 0 }
            .ok ({ db with options := db.options ++ [newOpt] }, newOpt)

/-! ## Listing/Query Engine (get_polls, polls.py:230-349)

The SQL query built by get_polls is embedded as: a visibility filter,
the optional is_active / owner_id filters, the optional case-insensitive
title search (added by paginate_query), and an ORDER BY key.  An ORDER BY
clause only constrains the relative order of rows with distinct keys, so
the query result is modelled as any permutation of the matching rows that
is sorted with respect to the emitted key (isQueryResult below). -/

inductive SortOption where
  | created_desc
  | created_asc
  | title_asc
  | title_desc
  | votes_desc
  | votes_asc
deriving Repr, DecidableEq

/-- Privacy filtering (polls.py:274-283): anonymous callers see only public
polls; authenticated callers see public polls or their own. -/
def visibleTo (currentUser : Option Int) (p : PollRow) : Bool :=
  match currentUser with
  | none => p.is_public
  | some uid => p.is_public || p.owner_id == uid

/-- Optional is_active / owner_id filters (polls.py:285-290). -/
def applyOptFilters (l : List PollRow) (isActiveF : Option Bool)
    (ownerF : Option Int) : List PollRow :=
  let l1 := match isActiveF with
    | none => l
    | some b => l.filter (fun p => p.is_active == b)
  match ownerF with
  | none => l1
  | some oid => l1.filter (fun p => p.owner_id == oid)

/-- Case-insensitive substring search on the title
(apply_search, pagination.py:72-101: Poll.title ILIKE percent-term-percent). -/
def titleMatches (term : String) (p : PollRow) : Bool :=
  listContainsSub (lowerStr term).data (lowerStr p.title).data

/-- Search filtering as wired in get_polls/paginate_query: the filter is
applied only when the search term is non-empty (an empty string is falsy
in Python, so both `[Poll.title] if search else None` and the
`if search_term and search_fields` guard skip it). -/
def applySearchTitle (l : List PollRow) (search : Option String) : List PollRow :=
  match search with
  | none => l
  | some t => if t == "" then l else l.filter (titleMatches t)

/-- The rows matching a listing request, in table order: visibility first,
then the optional filters, then search.  paginate_query computes the total
as the count of this set, before OFFSET/LIMIT are applied. -/
def matchingPolls (db : DB) (currentUser : Option Int) (isActiveF : Option Bool)
    (ownerF : Option Int) (search : Option String) : List PollRow :=
  applySearchTitle (applyOptFilters (db.polls.filter (visibleTo currentUser))
    isActiveF ownerF) search

/-- The per-poll vote aggregation subquery (polls.py:301-308):
SELECT poll_id, sum(vote_count) FROM poll_options GROUP BY poll_id. -/
def voteTotalsSubquery (db : DB) : List (Int × Nat) :=
  ((db.options.map (fun o => o.poll_id)).dedup).map (fun pid =>
    (pid, ((db.options.filter (fun o => o.poll_id == pid)).map
      (fun o => o.vote_count)).sum))

/-- The ORDER BY key for votes_desc/votes_asc (polls.py:309-312):
the poll is outer-joined against the subquery and the key is
coalesce(total_votes, 0). -/
def voteSortKey (db : DB) (p : PollRow) : Nat :=
  match (voteTotalsSubquery db).find? (fun r => r.1 == p.id) with
  | some r => r.2
  | none => 0

/-- a may be placed before b under the ORDER BY emitted for the sort option
(polls.py:292-328).  Note that the votes sorts order by the coalesced vote
total only: no secondary key appears in the ORDER BY. -/
def sortRelB (db : DB) (s : SortOption) (a b : PollRow) : Bool :=
  match s with
  | .created_desc => decide (b.pub_date ≤ a.pub_date)
  | .created_asc => decide (a.pub_date ≤ b.pub_date)
  | .title_asc => !(decide (b.title < a.title))
  | .title_desc => !(decide (a.title < b.title))
  | .votes_desc => decide (voteSortKey db b ≤ voteSortKey db a)
  | .votes_asc => decide (voteSortKey db a ≤ voteSortKey db b)

def sortedBy (r : PollRow → PollRow → Bool) : List PollRow → Bool
  | [] => true
  | [_] => true
  | a :: b :: rest => r a b && sortedBy r (b :: rest)

/-- l is an admissible result of the get_polls query before pagination:
a permutation of the matching rows that respects the emitted ORDER BY. -/
def isQueryResult (db : DB) (currentUser : Option Int) (isActiveF : Option Bool)
    (ownerF : Option Int) (s : SortOption) (search : Option String)
    (l : List PollRow) : Prop :=
  l.Perm (matchingPolls db currentUser isActiveF ownerF search) ∧
    sortedBy (sortRelB db s) l = true

/-! ## Pagination utilities (app/api/v1/utils/pagination.py) -/

structure PaginationParams where
  page : Nat
  size : Nat
deriving Repr, DecidableEq

/-- PaginationParams.offset (pagination.py:27-30). -/
def offsetOf (pp : PaginationParams) : Nat := (pp.page - 1) * pp.size

structure PaginationMeta where
  total : Nat
  page : Nat
  size : Nat
  pages : Nat
  has_next : Bool
  has_prev : Bool
deriving Repr, DecidableEq

/-- calculate_pagination_metadata (pagination.py:51-64):
pages = ceil(total/size) when total > 0, else 1;
has_next = page < pages; has_prev = page > 1. -/
def calculate_pagination_metadata (total : Nat) (pp : PaginationParams) :
    PaginationMeta :=
  let pages := if total > 0 then (total + pp.size - 1) / pp.size else 1
  { total := total, page := pp.page, size := pp.size, pages := pages,
    has_next := decide (pp.page < pages), has_prev := decide (pp.page > 1) }

/-- apply_pagination (pagination.py:67-69): OFFSET then LIMIT. -/
def apply_pagination (l : List PollRow) (pp : PaginationParams) : List PollRow :=
  (l.drop (offsetOf pp)).take pp.size

/-- paginate_query (pagination.py:133-161) on an admissible ordered result
list: the total is counted before pagination, then OFFSET/LIMIT are applied. -/
def paginate_query (l : List PollRow) (pp : PaginationParams) :
    List PollRow × Nat :=
  (apply_pagination l pp, l.length)

/-! ## Poll schemas (app/schemas/poll.py) -/

/-- Forbidden-substring denylist shared by the title validators
(poll.py:40 and poll.py:149). -/
def forbidden_words : List String := ["spam", "test123", "abuse"]

def forbiddenHit (v : String) : Bool :=
  forbidden_words.any (fun w => listContainsSub w.data (lowerStr v).data)

def containsLetter (v : String) : Bool :=
  v.data.any (fun c => c.isAlpha)

/-- The title pipeline shared by PollCreate.validate_title (poll.py:31-48)
and PollUpdate.validate_title (poll.py:136-157), including the pydantic
Field length bounds (checked on the submitted value, before the validator
collapses whitespace): none models a ValidationError. -/
def titleFieldCheck (raw : String) : Option String :=
  if raw.length < BusinessLimits.MIN_POLL_TITLE_LENGTH then none
  else if BusinessLimits.MAX_POLL_TITLE_LENGTH < raw.length then none
  else if (strip raw) == "" then none
  else if forbiddenHit (normalizeWs raw) then none
  else if containsLetter (normalizeWs raw) = false then none
  else some (normalizeWs raw)

/-- The description pipeline shared by PollCreate.validate_description
(poll.py:50-56) and PollUpdate.validate_description (poll.py:159-167):
the Field max_length bound, then whitespace collapsing, with a blank
description normalised to null. -/
def descriptionFieldCheck (raw : String) : Option (Option String) :=
  if BusinessLimits.MAX_POLL_DESCRIPTION_LENGTH < raw.length then none
  else if (strip raw) == "" then some none
  else some (some (normalizeWs raw))

structure PollCreatePayload where
  title : String
  description : Option String
  is_active : Bool
  is_public : Bool
deriving Repr, DecidableEq

structure PollCreateV where
  title : String
  description : Option String
  is_active : Bool
  is_public : Bool
deriving Repr, DecidableEq

/-- PollCreate validation (poll.py:8-68).  The model_validator
validate_poll_data (mode=before) first rejects a payload whose title and
description are identical after lower().strip(); then the per-field
pipelines run. -/
def pollCreateValidate (p : PollCreatePayload) : Option PollCreateV :=
  if (match p.description with
      | some d =>
        !(p.title == "") && !(d == "") &&
          strip (lowerStr p.title) == strip (lowerStr d)
      | none => false) then none
  else
    match titleFieldCheck p.title with
    | none => none
    | some t =>
      match p.description with
      | none => some { title := t, description := none,
                       is_active := p.is_active, is_public := p.is_public }
      | some d =>
        match descriptionFieldCheck d with
        | none => none
        | some dv => some { title := t, description := dv,
                            is_active := p.is_active, is_public := p.is_public }

/-- A PollUpdate request body; none means the field is absent from the
payload (model_dump(exclude_unset=True) drops it). -/
structure PollUpdatePayload where
  title : Option String
  description : Option String
  is_active : Option Bool
  is_public : Option Bool
deriving Repr, DecidableEq

/-- A validated PollUpdate: for description, some none records an explicit
blank description normalised to null by the validator. -/
structure PollUpdateV where
  title : Option String
  description : Option (Option String)
  is_active : Option Bool
  is_public : Option Bool
deriving Repr, DecidableEq

/-- PollUpdate validation (poll.py:118-167).  Each present field runs the
same per-field pipeline as on create; PollUpdate declares no
model_validator, so no cross-field title/description comparison happens. -/
def pollUpdateValidate (p : PollUpdatePayload) : Option PollUpdateV :=
  match p.title with
  | none =>
    match p.description with
    | none => some { title := none, description := none,
                     is_active := p.is_active, is_public := p.is_public }
    | some d =>
      match descriptionFieldCheck d with
      | none => none
      | some dv => some { title := none, description := some dv,
                          is_active := p.is_active, is_public := p.is_public }
  | some t =>
    match titleFieldCheck t with
    | none => none
    | some tv =>
      match p.description with
      | none => some { title := some tv, description := none,
                       is_active := p.is_active, is_public := p.is_public }
      | some d =>
        match descriptionFieldCheck d with
        | none => none
        | some dv => some { title := some tv, description := some dv,
                            is_active := p.is_active, is_public := p.is_public }

/-- The field-application loop of update_poll (polls.py:637-669): every
field present in the payload is written (string fields stripped first),
every omitted field keeps its previous value. -/
def applyPollUpdate (poll : PollRow) (u : PollUpdateV) : PollRow :=
  { poll with
    title := match u.title with
      | some t => strip t
      | none => poll.title,
    description := match u.description with
      | some d => d.map strip
      | none => poll.description,
    is_active := u.is_active.getD poll.is_active,
    is_public := u.is_public.getD poll.is_public }

/-! ## Concrete fixtures used by witnesses and counterexamples -/

def pollOne : PollRow :=
  { id := 1, title := "Favourite language", description := none,
    is_active := true, is_public := true, owner_id := 1, pub_date := 0 }

def optPython : PollOptionRow :=
  { id := 1, poll_id := 1, text := "Python", vote_count := 1 }

def optRust : PollOptionRow :=
  { id := 2, poll_id := 1, text := "Rust", vote_count := 0 }

def voteSeven : VoteRow :=
  { id := 1, poll_option_id := 1, poll_id := 1, user_id := 7, created_at := 0 }

/-- A public active poll on which user 7 has already voted (option 1). -/
def dbDup : DB :=
  { polls := [pollOne], options := [optPython, optRust], votes := [voteSeven] }

/-- A public active poll with two options and no votes yet. -/
def dbFresh : DB :=
  { polls := [pollOne], options := [optPython, optRust], votes := [] }

def pollPrivInactive : PollRow :=
  { id := 1, title := "Quarterly plans", description := none,
    is_active := false, is_public := false, owner_id := 1, pub_date := 0 }

def optYes : PollOptionRow :=
  { id := 1, poll_id := 1, text := "Yes", vote_count := 0 }

/-- A private, inactive poll owned by user 1. -/
def dbPrivInactive : DB :=
  { polls := [pollPrivInactive], options := [optYes], votes := [] }

def pollPubInactive : PollRow :=
  { id := 1, title := "Launch day poll", description := none,
    is_active := false, is_public := true, owner_id := 1, pub_date := 0 }

/-- A public but inactive poll. -/
def dbPubInactive : DB :=
  { polls := [pollPubInactive], options := [optYes], votes := [] }

def pollPriv : PollRow :=
  { id := 2, title := "Team retrospective", description := none,
    is_active := true, is_public := false, owner_id := 2, pub_date := 0 }

/-- A private active poll owned by user 2. -/
def dbPriv : DB :=
  { polls := [pollPriv], options := [], votes := [] }

/-- One public and one private poll, for listing visibility. -/
def dbMix : DB :=
  { polls := [pollOne, pollPriv], options := [], votes := [] }

def pollAlpha : PollRow :=
  { id := 1, title := "Alpha poll", description := none,
    is_active := true, is_public := true, owner_id := 1, pub_date := 0 }

def pollBeta : PollRow :=
  { id := 2, title := "Beta poll", description := none,
    is_active := true, is_public := true, owner_id := 1, pub_date := 0 }

/-- Two public polls with equal (zero) vote totals. -/
def dbTie : DB :=
  { polls := [pollAlpha, pollBeta], options := [], votes := [] }

def newChoiceText : String := "Premium tier"

def maybeText : String := "Maybe later"

def helloText : String := "Hello World"

def oldDescText : String := "Original body"

def weeklyTitle : String := "Weekly retro"

def examplePoll : PollRow :=
  { id := 1, title := "Original title", description := some oldDescText,
    is_active := true, is_public := true, owner_id := 1, pub_date := 0 }

/-- An update payload whose title and description are identical. -/
def updIdentical : PollUpdatePayload :=
  { title := some helloText, description := some helloText,
    is_active := none, is_public := none }

def updIdenticalV : PollUpdateV :=
  { title := some helloText, description := some (some helloText),
    is_active := none, is_public := none }

/-- The corresponding create payload with identical title and description. -/
def createIdentical : PollCreatePayload :=
  { title := helloText, description := some helloText,
    is_active := true, is_public := true }

/-- A partial update touching only title and is_active. -/
def rawWeekly : PollUpdatePayload :=
  { title := some weeklyTitle, description := none,
    is_active := some false, is_public := none }

def weeklyV : PollUpdateV :=
  { title := some weeklyTitle, description := none,
    is_active := some false, is_public := none }

/-! ## Helper lemmas -/

/-- Every run of vote_poll either denies, leaving the committed state
untouched, or commits exactly the insert-plus-increment pair for an
authenticated caller whose target option exists and belongs to the poll. -/
theorem vote_poll_cases (db : DB) (pollId optionId : Int) (currentUser : Option Int)
    (todayStart now newVoteId : Int) :
    (∃ e, vote_poll db pollId optionId currentUser todayStart now newVoteId =
        (db, .error e)) ∨
    (∃ uid popt, currentUser = some uid ∧
      db.options.find? (fun o => o.id == optionId) = some popt ∧
      popt.poll_id = pollId ∧
      vote_poll db pollId optionId currentUser todayStart now newVoteId =
        ({ polls := db.polls,
           options := db.options.map (fun o =>
             if o.id == optionId then { o with vote_count := o.vote_count + 1 } else o),
           votes := db.votes ++
             [{ id := newVoteId, poll_option_id := optionId, poll_id := pollId,
                user_id := uid, created_at := now }] },
         .ok { id := newVoteId, poll_option_id := optionId, poll_id := pollId,
               user_id := uid, created_at := now })) := by
  unfold vote_poll
  by_cases h1 : pollId ≤ 0
  · rw [if_pos h1]; exact .inl ⟨_, rfl⟩
  rw [if_neg h1]
  by_cases h2 : optionId ≤ 0
  · rw [if_pos h2]; exact .inl ⟨_, rfl⟩
  rw [if_neg h2]
  cases hfind : db.polls.find? (fun p => p.id == pollId) with
  | none => exact .inl ⟨_, rfl⟩
  | some poll =>
    dsimp only
    cases hgate : public_private_gate poll currentUser with
    | some e => exact .inl ⟨_, rfl⟩
    | none =>
      dsimp only
      by_cases hact : poll.is_active = false
      · rw [if_pos hact]; exact .inl ⟨_, rfl⟩
      rw [if_neg hact]
      cases hopt : db.options.find? (fun o => o.id == optionId) with
      | none => exact .inl ⟨_, rfl⟩
      | some popt =>
        dsimp only
        by_cases hbel : popt.poll_id ≠ pollId
        · rw [if_pos hbel]; exact .inl ⟨_, rfl⟩
        rw [if_neg hbel]
        cases currentUser with
        | none => exact .inl ⟨_, rfl⟩
        | some uid =>
          dsimp only
          cases hex : existing_vote db pollId uid with
          | some v => exact .inl ⟨_, rfl⟩
          | none =>
            dsimp only
            by_cases hdl : BusinessLimits.MAX_VOTES_PER_USER_PER_DAY ≤
                dailyVoteCount db uid todayStart
            · rw [if_pos hdl]; exact .inl ⟨_, rfl⟩
            rw [if_neg hdl]
            unfold vote_commit
            by_cases hiv : (db.votes.any (fun v =>
                v.poll_id == pollId && v.user_id == uid)) = true
            · rw [if_pos hiv]; exact .inl ⟨_, rfl⟩
            · rw [if_neg hiv]
              exact .inr ⟨uid, popt, rfl, rfl, not_ne_iff.mp hbel, rfl⟩

/-! ## Claim theorems -/

/-- Claim C1 (code_bug).  The data layer does carry the uniqueness
constraint on (poll_id, user_id) and a second vote attempt by the same
user on another option of the same poll is denied with the ledger and all
vote counts unchanged — but the denial is a 500 POLL_VOTE_FAILED, not the
documented 400 ALREADY_VOTED, because the handler evaluates the missing
attribute ErrorCodes.ALREADY_VOTED and the AttributeError falls through to
the generic exception handler. -/
theorem c1_second_vote_attempt :
    vote_poll dbDup 1 2 (some 7) 0 5 99 = (dbDup, .error pollVoteFailedErr)
    ∧ pollVoteFailedErr.status = 500
    ∧ pollVoteFailedErr.code ≠ "ALREADY_VOTED"
    ∧ ((vote_poll dbDup 1 2 (some 7) 0 5 99).1.votes.filter
        (fun v => v.poll_id == 1 && v.user_id == 7)).length = 1
    ∧ (vote_poll dbDup 1 2 (some 7) 0 5 99).1.options = dbDup.options := by
  exact ⟨rfl, rfl, by decide, rfl, rfl⟩

/-- Claim C2 (confirmed).  A denied vote attempt (any deny reason) leaves
the committed state exactly as it was; a successful vote commits exactly
one new Vote row together with a +1 on the vote_count of options with the
chosen id, and nothing else. -/
theorem c2_vote_atomicity (db : DB) (pollId optionId : Int)
    (currentUser : Option Int) (todayStart now newVoteId : Int) :
    (∀ e, (vote_poll db pollId optionId currentUser todayStart now newVoteId).2 =
        .error e →
      (vote_poll db pollId optionId currentUser todayStart now newVoteId).1 = db)
    ∧ (∀ v, (vote_poll db pollId optionId currentUser todayStart now newVoteId).2 =
        .ok v →
      (vote_poll db pollId optionId currentUser todayStart now newVoteId).1.polls =
          db.polls
      ∧ (vote_poll db pollId optionId currentUser todayStart now newVoteId).1.votes =
          db.votes ++ [v]
      ∧ (vote_poll db pollId optionId currentUser todayStart now newVoteId).1.options =
          db.options.map (fun o =>
            if o.id == optionId then { o with vote_count := o.vote_count + 1 } else o)
      ∧ ∃ popt, popt ∈ db.options ∧ popt.id = optionId ∧ popt.poll_id = pollId) := by
  rcases vote_poll_cases db pollId optionId currentUser todayStart now newVoteId with
    ⟨e, he⟩ | ⟨uid, popt, hcu, hopt, hbel, hshape⟩
  · rw [he]
    exact ⟨fun _ _ => rfl, fun v hv => Except.noConfusion hv⟩
  · refine ⟨fun e he2 => ?_, fun v hv => ?_⟩
    · rw [hshape] at he2
      exact Except.noConfusion he2
    · rw [hshape] at hv
      dsimp only at hv
      have hveq := Except.ok.inj hv
      subst hveq
      rw [hshape]
      exact ⟨rfl, rfl, rfl, popt, List.mem_of_find?_eq_some hopt,
        by simpa using List.find?_some hopt, hbel⟩

/-- Witness for C2: on a fresh public active poll, user 3 voting for
option 2 commits one Vote row and the matching increment. -/
theorem c2_vote_atomicity_witness :
    (vote_poll dbFresh 1 2 (some 3) 0 5 9).2 =
      .ok { id := 9, poll_option_id := 2, poll_id := 1, user_id := 3, created_at := 5 }
    ∧ (vote_poll dbFresh 1 2 (some 3) 0 5 9).1.votes = dbFresh.votes ++
        [{ id := 9, poll_option_id := 2, poll_id := 1, user_id := 3, created_at := 5 }]
    ∧ (vote_poll dbFresh 1 2 (some 3) 0 5 9).1.options = dbFresh.options.map (fun o =>
        if o.id == 2 then { o with vote_count := o.vote_count + 1 } else o) := by
  have h := (c2_vote_atomicity dbFresh 1 2 (some 3) 0 5 9).2
    { id := 9, poll_option_id := 2, poll_id := 1, user_id := 3, created_at := 5 } rfl
  exact ⟨rfl, h.2.1, h.2.2.1⟩

/-- Counterexample to claim C3 as stated: on a private inactive poll the
anonymous vote attempt is answered with AUTHENTICATION_REQUIRED, not
POLL_INACTIVE — the public/private gate runs before the active-state
check (polls.py:1125-1167); and a non-owner add_option attempt on an
inactive poll is answered with INSUFFICIENT_PERMISSIONS, not
POLL_INACTIVE — ownership is checked before the active check
(polls.py:903-926). -/
theorem c3_gate_order_counterexample :
    (vote_poll dbPrivInactive 1 1 none 0 0 9).2 = .error authenticationRequiredErr
    ∧ authenticationRequiredErr.code ≠ pollInactiveErr.code
    ∧ add_poll_option dbPrivInactive 1 2 newChoiceText 5 =
        .error insufficientPermissionsErr
    ∧ insufficientPermissionsErr.code ≠ pollInactiveErr.code := by
  exact ⟨rfl, by decide, rfl, by decide⟩

/-- Claim C3 (corrected).  On an inactive poll every vote attempt is
denied without a state change, but the public/private gate is evaluated
first: callers that fail the gate get its error, and callers that pass it
get a 500 POLL_VOTE_FAILED (the POLL_INACTIVE raise trips over the
missing ErrorCodes.POLL_INACTIVE constant).  add_option reaches its
POLL_INACTIVE denial only for the owner; a non-owner is denied with
INSUFFICIENT_PERMISSIONS before the active check. -/
theorem c3_inactive_gating_amended (db : DB) (pollId optionId : Int)
    (currentUser : Option Int) (todayStart now newVoteId uid newOptionId : Int)
    (text : String) (poll : PollRow)
    (hpos : 0 < pollId) (hopos : 0 < optionId)
    (hfind : db.polls.find? (fun p => p.id == pollId) = some poll)
    (hinact : poll.is_active = false) :
    ((vote_poll db pollId optionId currentUser todayStart now newVoteId).1 = db
      ∧ ∀ v, (vote_poll db pollId optionId currentUser todayStart now newVoteId).2 ≠
          .ok v)
    ∧ (poll.is_public = true →
        (vote_poll db pollId optionId currentUser todayStart now newVoteId).2 =
          .error pollVoteFailedErr)
    ∧ (poll.is_public = false → currentUser = none →
        (vote_poll db pollId optionId currentUser todayStart now newVoteId).2 =
          .error authenticationRequiredErr)
    ∧ (poll.is_public = false → ∀ u, currentUser = some u → poll.owner_id ≠ u →
        (vote_poll db pollId optionId currentUser todayStart now newVoteId).2 =
          .error accessDeniedErr)
    ∧ (poll.is_public = false → ∀ u, currentUser = some u → poll.owner_id = u →
        (vote_poll db pollId optionId currentUser todayStart now newVoteId).2 =
          .error pollVoteFailedErr)
    ∧ (poll.owner_id = uid →
        add_poll_option db pollId uid text newOptionId = .error pollInactiveErr)
    ∧ (poll.owner_id ≠ uid →
        add_poll_option db pollId uid text newOptionId =
          .error insufficientPermissionsErr) := by
  have hn1 : ¬ pollId ≤ 0 := by omega
  have hn2 : ¬ optionId ≤ 0 := by omega
  unfold vote_poll add_poll_option
  rw [if_neg hn1, if_neg hn2, hfind]
  dsimp only
  refine ⟨?_, ?_, ?_, ?_, ?_, ?_, ?_⟩
  · cases hg : public_private_gate poll currentUser with
    | some e => exact ⟨rfl, fun v h => Except.noConfusion h⟩
    | none =>
      dsimp only
      rw [if_pos hinact]
      exact ⟨rfl, fun v h => Except.noConfusion h⟩
  · intro hpub
    have hg : public_private_gate poll currentUser = none := by
      unfold public_private_gate
      rw [if_pos hpub]
    rw [hg]
    dsimp only
    rw [if_pos hinact]
  · intro hpub hcu
    have hg : public_private_gate poll currentUser = some authenticationRequiredErr := by
      unfold public_private_gate
      rw [if_neg (by simp [hpub]), hcu]
    rw [hg]
  · intro hpub u hcu hne
    have hg : public_private_gate poll currentUser = some accessDeniedErr := by
      unfold public_private_gate
      rw [if_neg (by simp [hpub]), hcu]
      dsimp only
      rw [if_neg (by simp [hne])]
    rw [hg]
  · intro hpub u hcu hown
    have hg : public_private_gate poll currentUser = none := by
      unfold public_private_gate
      rw [if_neg (by simp [hpub]), hcu]
      dsimp only
      rw [if_pos (by simp [hown])]
    rw [hg]
    dsimp only
    rw [if_pos hinact]
  · intro hown
    rw [if_neg hn1, if_neg (not_ne_iff.mpr hown), if_pos hinact]
  · intro hne
    rw [if_neg hn1, if_pos hne]

/-- Witness for C3 (amended): the owner of the private inactive poll gets
a 500 POLL_VOTE_FAILED on vote and POLL_INACTIVE on add_option. -/
theorem c3_inactive_gating_amended_witness :
    (vote_poll dbPrivInactive 1 1 (some 1) 0 0 9).2 = .error pollVoteFailedErr
    ∧ add_poll_option dbPrivInactive 1 1 newChoiceText 5 = .error pollInactiveErr := by
  have h := c3_inactive_gating_amended dbPrivInactive 1 1 (some 1) 0 0 9 1 5
    newChoiceText pollPrivInactive (by decide) (by decide) rfl rfl
  exact ⟨h.2.2.2.2.1 rfl 1 rfl rfl, h.2.2.2.2.2.1 rfl⟩

/-- Claim C4 (confirmed).  For an existing poll, get_poll succeeds for any
caller when the poll is public; on a private poll it succeeds exactly for
the owner, denies anonymous callers with 401 AUTHENTICATION_REQUIRED and
authenticated non-owners with 403 ACCESS_DENIED (polls.py:517-551). -/
theorem c4_get_poll_access (db : DB) (pollId : Int) (currentUser : Option Int)
    (poll : PollRow) (hpos : 0 < pollId)
    (hfind : db.polls.find? (fun p => p.id == pollId) = some poll) :
    (poll.is_public = true → get_poll db pollId currentUser = .ok poll)
    ∧ (poll.is_public = false → currentUser = none →
        get_poll db pollId currentUser = .error authenticationRequiredErr
        ∧ authenticationRequiredErr.status = 401)
    ∧ (poll.is_public = false → ∀ u, currentUser = some u → poll.owner_id ≠ u →
        get_poll db pollId currentUser = .error accessDeniedErr
        ∧ accessDeniedErr.status = 403)
    ∧ (poll.is_public = false → ∀ u, currentUser = some u → poll.owner_id = u →
        get_poll db pollId currentUser = .ok poll) := by
  have hn1 : ¬ pollId ≤ 0 := by omega
  unfold get_poll
  rw [if_neg hn1, hfind]
  dsimp only
  refine ⟨?_, ?_, ?_, ?_⟩
  · intro hpub
    have hg : public_private_gate poll currentUser = none := by
      unfold public_private_gate
      rw [if_pos hpub]
    rw [hg]
  · intro hpub hcu
    have hg : public_private_gate poll currentUser = some authenticationRequiredErr := by
      unfold public_private_gate
      rw [if_neg (by simp [hpub]), hcu]
    rw [hg]
    exact ⟨rfl, rfl⟩
  · intro hpub u hcu hne
    have hg : public_private_gate poll currentUser = some accessDeniedErr := by
      unfold public_private_gate
      rw [if_neg (by simp [hpub]), hcu]
      dsimp only
      rw [if_neg (by simp [hne])]
    rw [hg]
    exact ⟨rfl, rfl⟩
  · intro hpub u hcu hown
    have hg : public_private_gate poll currentUser = none := by
      unfold public_private_gate
      rw [if_neg (by simp [hpub]), hcu]
      dsimp only
      rw [if_pos (by simp [hown])]
    rw [hg]

/-- Witness for C4 on a concrete private poll owned by user 2. -/
theorem c4_get_poll_access_witness :
    get_poll dbPriv 2 none = .error authenticationRequiredErr
    ∧ get_poll dbPriv 2 (some 2) = .ok pollPriv
    ∧ get_poll dbPriv 2 (some 5) = .error accessDeniedErr := by
  have h1 := c4_get_poll_access dbPriv 2 none pollPriv (by decide) rfl
  have h2 := c4_get_poll_access dbPriv 2 (some 2) pollPriv (by decide) rfl
  have h3 := c4_get_poll_access dbPriv 2 (some 5) pollPriv (by decide) rfl
  exact ⟨(h1.2.1 rfl rfl).1, h2.2.2.2 rfl 2 rfl rfl, (h3.2.2.1 rfl 5 rfl (by decide)).1⟩

/-- Counterexample to claim C5 as stated: the anonymous vote attempt on a
public but inactive poll is rejected with the 500 POLL_VOTE_FAILED error,
not with a 401 VOTE_MODEL_CONSTRAINT. -/
theorem c5_anonymous_inactive_counterexample :
    vote_poll dbPubInactive 1 1 none 0 0 9 = (dbPubInactive, .error pollVoteFailedErr)
    ∧ pollVoteFailedErr.status ≠ 401
    ∧ pollVoteFailedErr.code ≠ voteModelConstraintErr.code := by
  exact ⟨rfl, by decide, by decide⟩

/-- Claim C5 (corrected).  An anonymous vote attempt never changes the
committed state, on any poll; when the poll is public and active and the
target option exists and belongs to it, the rejection is exactly the 401
VOTE_MODEL_CONSTRAINT error (polls.py:1236-1249); on other polls an
earlier check's error rejects the attempt first. -/
theorem c5_anonymous_vote_amended (db : DB) (pollId optionId : Int)
    (todayStart now newVoteId : Int) (poll : PollRow) (popt : PollOptionRow)
    (hpos : 0 < pollId) (hopos : 0 < optionId)
    (hfind : db.polls.find? (fun p => p.id == pollId) = some poll)
    (hpub : poll.is_public = true) (hact : poll.is_active = true)
    (hofind : db.options.find? (fun o => o.id == optionId) = some popt)
    (hbel : popt.poll_id = pollId) :
    vote_poll db pollId optionId none todayStart now newVoteId =
      (db, .error voteModelConstraintErr)
    ∧ voteModelConstraintErr.status = 401
    ∧ (∀ (db2 : DB) (p2 o2 t2 n2 i2 : Int),
        (vote_poll db2 p2 o2 none t2 n2 i2).1 = db2) := by
  refine ⟨?_, rfl, ?_⟩
  · have hn1 : ¬ pollId ≤ 0 := by omega
    have hn2 : ¬ optionId ≤ 0 := by omega
    have hg : public_private_gate poll none = none := by
      unfold public_private_gate
      rw [if_pos hpub]
    unfold vote_poll
    rw [if_neg hn1, if_neg hn2, hfind]
    dsimp only
    rw [hg]
    dsimp only
    rw [if_neg (by simp [hact]), hofind]
    dsimp only
    rw [if_neg (by simp [hbel])]
  · intro db2 p2 o2 t2 n2 i2
    rcases vote_poll_cases db2 p2 o2 none t2 n2 i2 with ⟨e, he⟩ | ⟨uid, popt2, hcu, _⟩
    · rw [he]
    · exact Option.noConfusion hcu

/-- Witness for C5 (amended) on a fresh public active poll. -/
theorem c5_anonymous_vote_amended_witness :
    vote_poll dbFresh 1 1 none 0 0 9 = (dbFresh, .error voteModelConstraintErr) := by
  exact (c5_anonymous_vote_amended dbFresh 1 1 0 0 9 pollOne optPython
    (by decide) (by decide) rfl rfl rfl rfl rfl).1

theorem mem_of_mem_applyOptFilters {p : PollRow} {l : List PollRow}
    {isActiveF : Option Bool} {ownerF : Option Int}
    (h : p ∈ applyOptFilters l isActiveF ownerF) : p ∈ l := by
  unfold applyOptFilters at h
  cases isActiveF with
  | none =>
    cases ownerF with
    | none => exact h
    | some oid => exact List.mem_of_mem_filter h
  | some b =>
    cases ownerF with
    | none => exact List.mem_of_mem_filter h
    | some oid => exact List.mem_of_mem_filter (List.mem_of_mem_filter h)

theorem mem_of_mem_applySearchTitle {p : PollRow} {l : List PollRow}
    {search : Option String} (h : p ∈ applySearchTitle l search) : p ∈ l := by
  unfold applySearchTitle at h
  cases search with
  | none => exact h
  | some t =>
    dsimp only at h
    by_cases ht : (t == "") = true
    · rw [if_pos ht] at h; exact h
    · rw [if_neg ht] at h; exact List.mem_of_mem_filter h

theorem visibleTo_of_mem_matching {db : DB} {currentUser : Option Int}
    {isActiveF : Option Bool} {ownerF : Option Int} {search : Option String}
    {p : PollRow} (h : p ∈ matchingPolls db currentUser isActiveF ownerF search) :
    visibleTo currentUser p = true := by
  unfold matchingPolls at h
  have h2 := mem_of_mem_applyOptFilters (mem_of_mem_applySearchTitle h)
  exact (List.mem_filter.mp h2).2

/-- Claim C6 (confirmed).  The visibility predicate is enforced before
pagination and before the total: every poll on any returned page and every
poll contributing to the total satisfies it (anonymous: is_public;
authenticated caller C: is_public or owner_id = C), the total is counted
over the filtered set before OFFSET/LIMIT, and with no further filters and
no search the pre-pagination result is exactly the visibility-filtered
poll set. -/
theorem c6_visibility_before_pagination (db : DB) (currentUser : Option Int)
    (isActiveF : Option Bool) (ownerF : Option Int) (s : SortOption)
    (search : Option String) (pp : PaginationParams) (l : List PollRow)
    (hres : isQueryResult db currentUser isActiveF ownerF s search l) :
    (∀ p ∈ (paginate_query l pp).1, visibleTo currentUser p = true)
    ∧ (∀ p ∈ matchingPolls db currentUser isActiveF ownerF search,
        visibleTo currentUser p = true)
    ∧ (paginate_query l pp).2 =
        (matchingPolls db currentUser isActiveF ownerF search).length
    ∧ (isActiveF = none → ownerF = none → search = none →
        l.Perm (db.polls.filter (visibleTo currentUser))) := by
  obtain ⟨hperm, hsort⟩ := hres
  refine ⟨?_, fun p hp => visibleTo_of_mem_matching hp, ?_, ?_⟩
  · intro p hp
    have hl : p ∈ l := List.drop_subset _ _ (List.take_subset _ _ hp)
    exact visibleTo_of_mem_matching (hperm.mem_iff.mp hl)
  · exact hperm.length_eq
  · intro ha ho hs2
    subst ha; subst ho; subst hs2
    simpa [matchingPolls, applyOptFilters, applySearchTitle] using hperm

/-- Witness for C6 on a mixed public/private table with an anonymous
caller: the result set is exactly the public polls. -/
theorem c6_visibility_before_pagination_witness :
    (∀ p ∈ (paginate_query (matchingPolls dbMix none none none none) ⟨1, 10⟩).1,
      visibleTo none p = true)
    ∧ (matchingPolls dbMix none none none none).Perm
        (dbMix.polls.filter (visibleTo none)) := by
  have h := c6_visibility_before_pagination dbMix none none none .created_desc none
    ⟨1, 10⟩ (matchingPolls dbMix none none none none) ⟨List.Perm.refl _, rfl⟩
  exact ⟨h.1, h.2.2.2 rfl rfl rfl⟩

theorem find_pair_of_mem (f : Int → Nat) :
    ∀ (l : List Int) (a : Int), a ∈ l →
      (l.map (fun pid => (pid, f pid))).find? (fun r => r.1 == a) = some (a, f a) := by
  intro l
  induction l with
  | nil => intro a ha; cases ha
  | cons b t ih =>
    intro a ha
    rw [List.map_cons]
    by_cases hba : (b == a) = true
    · have hb : b = a := by simpa using hba
      subst hb
      rw [List.find?_cons_of_pos _ (by simp)]
    · rw [List.find?_cons_of_neg _ (by simpa using hba)]
      apply ih
      rcases List.mem_cons.mp ha with h | h
      · exact absurd (by simp [h]) hba
      · exact h

/-- Claim C7 amended part (aggregation): the ORDER BY key used by the
votes sorts equals the sum of vote_count over the poll's options, with
zero-option polls keyed as zero (outer join plus coalesce). -/
theorem c7_votes_aggregation_amended : ∀ (db : DB) (p : PollRow),
    voteSortKey db p =
      ((db.options.filter (fun o => o.poll_id == p.id)).map
        (fun o => o.vote_count)).sum := by
  intro db p
  unfold voteSortKey voteTotalsSubquery
  by_cases hmem : p.id ∈ (db.options.map (fun o => o.poll_id)).dedup
  · have hfind := find_pair_of_mem
      (fun pid => ((db.options.filter (fun o => o.poll_id == pid)).map
        (fun o => o.vote_count)).sum)
      ((db.options.map (fun o => o.poll_id)).dedup) p.id hmem
    rw [hfind]
  · rw [List.find?_eq_none.mpr ?_]
    · have hfil : db.options.filter (fun o => o.poll_id == p.id) = [] := by
        rw [List.filter_eq_nil_iff]
        intro o ho hpo
        exact hmem (List.mem_dedup.mpr (List.mem_map.mpr ⟨o, ho, by simpa using hpo⟩))
      rw [hfil]
      rfl
    · intro x hx
      obtain ⟨pid, hpid, hxe⟩ := List.mem_map.mp hx
      subst hxe
      simp only [beq_iff_eq]
      intro hcontra
      exact hmem (hcontra ▸ hpid)

/-- Counterexample to claim C7 as stated: the emitted ORDER BY carries no
id tie-break, so for two polls with equal vote totals both orders are
admissible results of the same query — identical orderings across two
identical requests are not guaranteed by the query. -/
theorem c7_tie_break_counterexample :
    isQueryResult dbTie none none none .votes_desc none [pollAlpha, pollBeta]
    ∧ isQueryResult dbTie none none none .votes_desc none [pollBeta, pollAlpha]
    ∧ ([pollBeta, pollAlpha] : List PollRow) ≠ [pollAlpha, pollBeta] := by
  refine ⟨⟨List.Perm.refl _, rfl⟩, ⟨List.Perm.swap pollAlpha pollBeta [], rfl⟩,
    by decide⟩

theorem pages_join_eq (size : Nat) : ∀ (n : Nat) (l : List PollRow),
    ((List.range n).map (fun i => (l.drop (i * size)).take size)).flatten =
      l.take (n * size) := by
  intro n
  induction n with
  | zero => intro l; simp
  | succ k ih =>
    intro l
    rw [List.range_succ, List.map_append, List.flatten_append, ih]
    simp [Nat.succ_mul, List.take_add]

theorem le_ceil_mul (t s : Nat) (hs : 1 ≤ s) : t ≤ ((t + s - 1) / s) * s := by
  have h1 := Nat.div_add_mod (t + s - 1) s
  have h2 : (t + s - 1) % s < s := Nat.mod_lt _ hs
  have h3 : s * ((t + s - 1) / s) ≥ t + s - 1 - ((t + s - 1) % s) := by omega
  have h4 : t + s - 1 - ((t + s - 1) % s) ≥ t + s - 1 - (s - 1) := by omega
  have h5 : t + s - 1 - (s - 1) = t := by omega
  calc t = t + s - 1 - (s - 1) := h5.symm
    _ ≤ t + s - 1 - ((t + s - 1) % s) := h4
    _ ≤ s * ((t + s - 1) / s) := h3
    _ = ((t + s - 1) / s) * s := Nat.mul_comm _ _

theorem pages_eq_max (t s : Nat) (hs : 1 ≤ s) :
    (if t > 0 then (t + s - 1) / s else 1) = max 1 ((t + s - 1) / s) := by
  by_cases ht : t > 0
  · rw [if_pos ht]
    exact (Nat.max_eq_right ((Nat.one_le_div_iff (by omega)).mpr (by omega))).symm
  · rw [if_neg ht]
    have ht0 : t = 0 := by omega
    subst ht0
    have h0 : (0 + s - 1) / s = 0 := Nat.div_eq_of_lt (by omega)
    rw [h0]
    decide

/-- Claim C8 (confirmed).  For page size S ≥ 1 over a filtered total T:
pages = max(1, ceil(T/S)) (with nat ceiling (T+S-1)/S), has_next holds
exactly below the last page, has_prev exactly above the first, and the
page sizes across all pages sum to T. -/
theorem c8_pagination_totals (t s page : Nat) (l : List PollRow)
    (hs : 1 ≤ s) (hsmax : s ≤ DatabaseConfig.MAX_PAGE_SIZE) (hl : l.length = t) :
    (calculate_pagination_metadata t ⟨page, s⟩).pages = max 1 ((t + s - 1) / s)
    ∧ ((calculate_pagination_metadata t ⟨page, s⟩).has_next = true ↔
        page < (calculate_pagination_metadata t ⟨page, s⟩).pages)
    ∧ ((calculate_pagination_metadata t ⟨page, s⟩).has_prev = true ↔ 1 < page)
    ∧ ((List.range (calculate_pagination_metadata t ⟨page, s⟩).pages).map
        (fun i => (apply_pagination l ⟨i + 1, s⟩).length)).sum = t := by
  refine ⟨pages_eq_max t s hs, by simp [calculate_pagination_metadata],
    by simp [calculate_pagination_metadata], ?_⟩
  have hPt : t ≤ (calculate_pagination_metadata t ⟨page, s⟩).pages * s := by
    show t ≤ (if t > 0 then (t + s - 1) / s else 1) * s
    by_cases ht : t > 0
    · rw [if_pos ht]; exact le_ceil_mul t s hs
    · rw [if_neg ht]; omega
  calc ((List.range (calculate_pagination_metadata t ⟨page, s⟩).pages).map
        (fun i => (apply_pagination l ⟨i + 1, s⟩).length)).sum
      = (((List.range (calculate_pagination_metadata t ⟨page, s⟩).pages).map
          (fun i => (l.drop (i * s)).take s)).map List.length).sum := by
        rw [List.map_map]; rfl
    _ = (((List.range (calculate_pagination_metadata t ⟨page, s⟩).pages).map
          (fun i => (l.drop (i * s)).take s)).flatten).length := (List.length_flatten _).symm
    _ = (l.take ((calculate_pagination_metadata t ⟨page, s⟩).pages * s)).length := by
        rw [pages_join_eq]
    _ = t := by
        rw [List.length_take, hl]
        exact Nat.min_eq_right hPt

/-- Witness for C8: 25 polls at size 10 give 3 pages whose sizes sum
back to 25. -/
theorem c8_pagination_totals_witness :
    (calculate_pagination_metadata 25 ⟨3, 10⟩).pages = max 1 ((25 + 10 - 1) / 10)
    ∧ ((List.range (calculate_pagination_metadata 25 ⟨3, 10⟩).pages).map
        (fun i => (apply_pagination (List.replicate 25 pollOne) ⟨i + 1, 10⟩).length)).sum
      = 25 := by
  have h := c8_pagination_totals 25 10 3 (List.replicate 25 pollOne)
    (by decide) (by decide) (by simp)
  exact ⟨h.1, h.2.2.2⟩

/-- Claim C9 (confirmed).  For an add_option request by the owner of an
active poll: the request is denied once the poll already holds
MAX_POLL_OPTIONS (10) options, denied when an existing option matches the
new text case-insensitively, and otherwise creates the stripped option
with vote_count 0 (polls.py:928-970). -/
theorem c9_add_option_rules (db : DB) (pollId uid newOptionId : Int)
    (text : String) (poll : PollRow)
    (hpos : 0 < pollId)
    (hfind : db.polls.find? (fun p => p.id == pollId) = some poll)
    (hown : poll.owner_id = uid) (hact : poll.is_active = true) :
    (BusinessLimits.MAX_POLL_OPTIONS ≤
        (db.options.filter (fun o => o.poll_id == pollId)).length →
      add_poll_option db pollId uid text newOptionId = .error maxOptionsExceededErr)
    ∧ ((db.options.filter (fun o => o.poll_id == pollId)).length <
        BusinessLimits.MAX_POLL_OPTIONS →
      ∀ ex, db.options.find? (fun o =>
          o.poll_id == pollId && lowerStr o.text == lowerStr (strip text)) = some ex →
      add_poll_option db pollId uid text newOptionId = .error duplicatePollOptionErr)
    ∧ ((db.options.filter (fun o => o.poll_id == pollId)).length <
        BusinessLimits.MAX_POLL_OPTIONS →
      db.options.find? (fun o =>
          o.poll_id == pollId && lowerStr o.text == lowerStr (strip text)) = none →
      add_poll_option db pollId uid text newOptionId =
        .ok ({ db with options := db.options ++
            [{ id := newOptionId, poll_id := pollId, text := strip text,
               vote_count := 0 }] },
          { id := newOptionId, poll_id := pollId, text := strip text,
            vote_count := 0 })) := by
  have hn1 : ¬ pollId ≤ 0 := by omega
  unfold add_poll_option
  rw [if_neg hn1, hfind]
  dsimp only
  rw [if_neg (not_ne_iff.mpr hown), if_neg (by simp [hact])]
  refine ⟨fun hcap => ?_, fun hcap ex hdup => ?_, fun hcap hnone => ?_⟩
  · rw [if_pos hcap]
  · rw [if_neg (by omega), hdup]
  · rw [if_neg (by omega), hnone]

/-- Witness for C9: the owner adds a fresh option to an active two-option
poll and it is created with vote_count 0. -/
theorem c9_add_option_rules_witness :
    add_poll_option dbFresh 1 1 maybeText 7 =
      .ok ({ dbFresh with options := dbFresh.options ++
          [{ id := 7, poll_id := 1, text := strip maybeText, vote_count := 0 }] },
        { id := 7, poll_id := 1, text := strip maybeText, vote_count := 0 }) := by
  exact (c9_add_option_rules dbFresh 1 1 7 maybeText pollOne
    (by decide) rfl rfl rfl).2.2 (by decide) rfl

theorem titleFieldCheck_some {t tv : String} (h : titleFieldCheck t = some tv) :
    BusinessLimits.MIN_POLL_TITLE_LENGTH ≤ t.length
    ∧ t.length ≤ BusinessLimits.MAX_POLL_TITLE_LENGTH
    ∧ tv = normalizeWs t
    ∧ forbiddenHit tv = false
    ∧ containsLetter tv = true := by
  unfold titleFieldCheck at h
  by_cases h1 : t.length < BusinessLimits.MIN_POLL_TITLE_LENGTH
  · rw [if_pos h1] at h; cases h
  rw [if_neg h1] at h
  by_cases h2 : BusinessLimits.MAX_POLL_TITLE_LENGTH < t.length
  · rw [if_pos h2] at h; cases h
  rw [if_neg h2] at h
  by_cases h3 : (strip t == "") = true
  · rw [if_pos h3] at h; cases h
  rw [if_neg h3] at h
  by_cases h4 : (forbiddenHit (normalizeWs t)) = true
  · rw [if_pos h4] at h; cases h
  rw [if_neg h4] at h
  by_cases h5 : containsLetter (normalizeWs t) = false
  · rw [if_pos h5] at h; cases h
  rw [if_neg h5] at h
  have heq : normalizeWs t = tv := Option.some.inj h
  refine ⟨by omega, by omega, heq.symm, ?_, ?_⟩
  · rw [← heq]
    simpa using h4
  · rw [← heq]
    simpa using h5

theorem descriptionFieldCheck_some {d : String} {dv : Option String}
    (h : descriptionFieldCheck d = some dv) :
    d.length ≤ BusinessLimits.MAX_POLL_DESCRIPTION_LENGTH := by
  unfold descriptionFieldCheck at h
  by_cases h1 : BusinessLimits.MAX_POLL_DESCRIPTION_LENGTH < d.length
  · rw [if_pos h1] at h; cases h
  · omega

theorem pollUpdateValidate_spec (raw : PollUpdatePayload) (v : PollUpdateV)
    (h : pollUpdateValidate raw = some v) :
    (raw.title = none → v.title = none)
    ∧ (∀ t, raw.title = some t →
        ∃ tv, titleFieldCheck t = some tv ∧ v.title = some tv)
    ∧ (raw.description = none → v.description = none)
    ∧ (∀ d, raw.description = some d →
        ∃ dv, descriptionFieldCheck d = some dv ∧ v.description = some dv) := by
  unfold pollUpdateValidate at h
  cases hrt : raw.title with
  | none =>
    rw [hrt] at h
    dsimp only at h
    cases hrd : raw.description with
    | none =>
      rw [hrd] at h
      dsimp only at h
      have hv := Option.some.inj h
      subst hv
      exact ⟨fun _ => rfl, fun t ht => Option.noConfusion ht, fun _ => rfl,
        fun d hd => Option.noConfusion hd⟩
    | some d =>
      rw [hrd] at h
      dsimp only at h
      cases hdc : descriptionFieldCheck d with
      | none => rw [hdc] at h; cases h
      | some dv =>
        rw [hdc] at h
        dsimp only at h
        have hv := Option.some.inj h
        subst hv
        refine ⟨fun _ => rfl, fun t ht => Option.noConfusion ht,
          fun hd0 => Option.noConfusion hd0, fun d2 hd2 => ?_⟩
        have hde := Option.some.inj hd2
        subst hde
        exact ⟨dv, hdc, rfl⟩
  | some t =>
    rw [hrt] at h
    dsimp only at h
    cases htc : titleFieldCheck t with
    | none => rw [htc] at h; cases h
    | some tv =>
      rw [htc] at h
      dsimp only at h
      cases hrd : raw.description with
      | none =>
        rw [hrd] at h
        dsimp only at h
        have hv := Option.some.inj h
        subst hv
        refine ⟨fun ht0 => Option.noConfusion ht0, fun t2 ht2 => ?_,
          fun _ => rfl, fun d hd => Option.noConfusion hd⟩
        have hte := Option.some.inj ht2
        subst hte
        exact ⟨tv, htc, rfl⟩
      | some d =>
        rw [hrd] at h
        dsimp only at h
        cases hdc : descriptionFieldCheck d with
        | none => rw [hdc] at h; cases h
        | some dv =>
          rw [hdc] at h
          dsimp only at h
          have hv := Option.some.inj h
          subst hv
          refine ⟨fun ht0 => Option.noConfusion ht0, fun t2 ht2 => ?_,
            fun hd0 => Option.noConfusion hd0, fun d2 hd2 => ?_⟩
          · have hte := Option.some.inj ht2
            subst hte
            exact ⟨tv, htc, rfl⟩
          · have hde := Option.some.inj hd2
            subst hde
            exact ⟨dv, hdc, rfl⟩

/-- Counterexample to claim C10 as stated: PollUpdate declares no
cross-field validator, so an update whose title and description are
identical passes validation and is applied, although the same payload is
rejected on create. -/
theorem c10_identical_title_description_counterexample :
    pollUpdateValidate updIdentical = some updIdenticalV
    ∧ pollCreateValidate createIdentical = none
    ∧ (applyPollUpdate examplePoll updIdenticalV).title = helloText
    ∧ (applyPollUpdate examplePoll updIdenticalV).description = some helloText := by
  exact ⟨rfl, rfl, rfl, rfl⟩

/-- Claim C10 (corrected).  Partial-update semantics hold: every field
absent from the payload keeps its previous value, and the per-field rules
(length bounds on the submitted value, forbidden-substring denylist and
must-contain-a-letter on the normalised title, description length bound)
are applied to each present field — but the title-not-identical-to-
description rule is enforced only on create, not on update. -/
theorem c10_partial_update_amended (poll : PollRow) (raw : PollUpdatePayload)
    (v : PollUpdateV) (hval : pollUpdateValidate raw = some v) :
    (v.title = none → (applyPollUpdate poll v).title = poll.title)
    ∧ (v.description = none → (applyPollUpdate poll v).description = poll.description)
    ∧ (v.is_active = none → (applyPollUpdate poll v).is_active = poll.is_active)
    ∧ (v.is_public = none → (applyPollUpdate poll v).is_public = poll.is_public)
    ∧ (raw.title = none → v.title = none)
    ∧ (raw.description = none → v.description = none)
    ∧ (∀ t, raw.title = some t →
        BusinessLimits.MIN_POLL_TITLE_LENGTH ≤ t.length
        ∧ t.length ≤ BusinessLimits.MAX_POLL_TITLE_LENGTH
        ∧ ∃ tv, v.title = some tv ∧ forbiddenHit tv = false
            ∧ containsLetter tv = true)
    ∧ (∀ d, raw.description = some d →
        d.length ≤ BusinessLimits.MAX_POLL_DESCRIPTION_LENGTH) := by
  obtain ⟨htn, hts, hdn, hds⟩ := pollUpdateValidate_spec raw v hval
  refine ⟨fun h => by simp [applyPollUpdate, h], fun h => by simp [applyPollUpdate, h],
    fun h => by simp [applyPollUpdate, h], fun h => by simp [applyPollUpdate, h],
    htn, hdn, ?_, ?_⟩
  · intro t ht
    obtain ⟨tv, htc, hvt⟩ := hts t ht
    obtain ⟨hb1, hb2, _, hforb, hlet⟩ := titleFieldCheck_some htc
    exact ⟨hb1, hb2, tv, hvt, hforb, hlet⟩
  · intro d hd
    obtain ⟨dv, hdc, _⟩ := hds d hd
    exact descriptionFieldCheck_some hdc

/-- Witness for C10 (amended): updating only title and is_active leaves
description and is_public untouched, and the present title obeys the
length bound. -/
theorem c10_partial_update_amended_witness :
    (applyPollUpdate examplePoll weeklyV).description = examplePoll.description
    ∧ (applyPollUpdate examplePoll weeklyV).is_public = examplePoll.is_public
    ∧ BusinessLimits.MIN_POLL_TITLE_LENGTH ≤ weeklyTitle.length := by
  have h := c10_partial_update_amended examplePoll rawWeekly weeklyV rfl
  exact ⟨h.2.1 rfl, h.2.2.2.1 rfl, (h.2.2.2.2.2.2.1 weeklyTitle rfl).1⟩

end PollsApi
